import Mathlib

/-!
Verification of the simulation core of the `astro` arcade shooter.

The embedding below translates the simulation parts of `src/App.tsx`,
`src/constants.ts` and `src/types.ts`:

* `Math.random()` results are modelled as a stream `rnd : ℕ → ℚ` of draws,
  consumed in source order through an explicit index; hypotheses restrict
  the draws to `[0, 1)` where a claim needs it.
* JavaScript numbers are modelled as `ℚ` (all gameplay quantities are exact
  decimals) except the flanking-movement trigonometry, which is modelled
  over `ℝ`.
* The `setTimeout` / `setInterval` structure is flattened: each handler is a
  function of the state it reads, and delayed effects are composed in the
  order the timers fire; the delays themselves are carried as data where a
  claim mentions them.
* React state variables are constants of the render that created a closure,
  so a callback armed by an effect sees the values captured when the effect
  ran, not the live values when the timer fires.  This matters for the
  enemy-fire resolution callback and is modelled explicitly there.
-/

namespace Astro

/-- `GameState` enum from `src/types.ts`. -/
inductive GameState
  | IDLE
  | FIRING
  | LEAPING
  | GENERATING
  | PAUSED
  | ERROR
  | GAME_OVER
  deriving DecidableEq, Repr

/-- `ShipType` from `src/types.ts`: 5 base classes and their mk2 variants. -/
inductive ShipType
  | fighter
  | interceptor
  | cruiser
  | bomber
  | dreadnought
  | fighterMk2
  | interceptorMk2
  | cruiserMk2
  | bomberMk2
  | dreadnoughtMk2
  deriving DecidableEq, Repr

/-- Whether a `ShipType` is one of the `-mk2` variants. -/
def ShipType.isMk2 : ShipType → Bool
  | .fighterMk2 | .interceptorMk2 | .cruiserMk2 | .bomberMk2 | .dreadnoughtMk2 => true
  | _ => false

/-- `EnemyShip.movementPattern` from `src/types.ts`. -/
inductive MovementPattern
  | static
  | strafe
  | flank
  deriving DecidableEq, Repr

/-- `EnemyShip.flankDirection` from `src/types.ts`. -/
inductive FlankDirection
  | cw
  | ccw
  deriving DecidableEq, Repr

/-- Entity id.  In the source an id is the template string
`prefix + typeRand + "-" + Date.now() + "-" + i` (src/App.tsx line 21 and the
per-branch prefixes).  The decimal renderings of `typeRand`, of the timestamp
and of the slot index never contain the separator `-`, and the prefixes end in
`-`, so the string determines and is determined by the four fields; the id is
therefore embedded as the tuple of those fields. -/
structure ObjId where
  pre : String
  typeRand : ℚ
  time : ℕ
  slot : ℕ
  deriving DecidableEq, Repr

/-- The `CelestialObject` tagged union from `src/types.ts` (with the
`heart_star` / `boost_star` variants that `generateCelestialObjects`
produces).  The `id` field is named `oid` to avoid clashing with `id`. -/
inductive CelestialObject
  | star (oid : ObjId) (coordinates : ℚ × ℚ) (size : ℚ) (color : String)
  | asteroid (oid : ObjId) (coordinates : ℚ × ℚ) (size : ℚ)
  | heart_star (oid : ObjId) (coordinates : ℚ × ℚ) (size : ℚ)
  | boost_star (oid : ObjId) (coordinates : ℚ × ℚ) (size : ℚ)
  | ship (oid : ObjId) (coordinates : ℚ × ℚ) (size : ℚ) (shipType : ShipType)
      (movementPattern : MovementPattern) (velocity : ℚ × ℚ)
      (flankDirection : Option FlankDirection)
  deriving DecidableEq, Repr

/-- The `type` discriminator of a `CelestialObject`. -/
inductive ObjKind
  | star
  | asteroid
  | heart_star
  | boost_star
  | ship
  deriving DecidableEq, Repr

def CelestialObject.kind : CelestialObject → ObjKind
  | .star .. => .star
  | .asteroid .. => .asteroid
  | .heart_star .. => .heart_star
  | .boost_star .. => .boost_star
  | .ship .. => .ship

def CelestialObject.oid : CelestialObject → ObjId
  | .star i _ _ _ => i
  | .asteroid i _ _ => i
  | .heart_star i _ _ => i
  | .boost_star i _ _ => i
  | .ship i _ _ _ _ _ _ => i

def CelestialObject.coordinates : CelestialObject → ℚ × ℚ
  | .star _ c _ _ => c
  | .asteroid _ c _ => c
  | .heart_star _ c _ => c
  | .boost_star _ c _ => c
  | .ship _ c _ _ _ _ _ => c

/-- `obj.type === 'ship'`. -/
def CelestialObject.isShip (o : CelestialObject) : Bool :=
  o.kind == .ship

/-- The `shipType` of a ship object, `none` for the other variants. -/
def CelestialObject.shipTypeOf : CelestialObject → Option ShipType
  | .ship _ _ _ st _ _ _ => some st
  | _ => none

/-- `CELESTIAL_OBJECT_COUNT` from `src/constants.ts`. -/
def CELESTIAL_OBJECT_COUNT : ℕ := 500

/-- `STAR_COLORS` from `src/constants.ts`. -/
def STAR_COLORS : List String := ["#FFFFFF", "#FFF8E7", "#D4E8FF", "#FFD4D4"]

/-- `HEALTH_REWARD` from `src/constants.ts`. -/
def HEALTH_REWARD : ℤ := 10

/-- `BOOST_REWARD` from `src/constants.ts`. -/
def BOOST_REWARD : ℕ := 1

/-- `MAX_PLAYER_HEALTH` from `src/App.tsx` line 11. -/
def MAX_PLAYER_HEALTH : ℤ := 100

/-- `ENEMY_LASER_DAMAGE` from `src/App.tsx` line 12. -/
def ENEMY_LASER_DAMAGE : ℤ := 5

/-- `ENEMY_SCORES` from `src/constants.ts`. -/
def ENEMY_SCORES : ShipType → ℕ
  | .fighter => 10
  | .interceptor => 15
  | .cruiser => 25
  | .bomber => 50
  | .dreadnought => 100
  | .fighterMk2 => 20
  | .interceptorMk2 => 30
  | .cruiserMk2 => 50
  | .bomberMk2 => 100
  | .dreadnoughtMk2 => 200

/-! ### Entity generator (`generateCelestialObjects`, src/App.tsx 14-68) -/

/-- `Math.floor(Math.random() * 20) + 4` (src/App.tsx line 16): the per-call
cap on generated enemy ships, drawn from the stream before the slot loop. -/
def maxShipsForLevelOf (rnd : ℕ → ℚ) : ℕ :=
  Int.toNat ⌊rnd 0 * 20⌋ + 4

/-- One slot of `generateCelestialObjects` (src/App.tsx 18-67).  `rnd` is the
stream of `Math.random()` results and `k` the index of the next unconsumed
draw; `now` is `Date.now()`; `i` is the slot index and `shipCount` the running
count of ships generated so far in this call.  Returns the object, the updated
ship count and the updated draw index.  Draw order follows the source: the
branch test value `typeRand`, then the two coordinate draws of `common`, then
the branch-specific draws. -/
def genSlot (level : ℕ) (maxShipsForLevel : ℕ) (now : ℕ) (rnd : ℕ → ℚ)
    (i shipCount k : ℕ) : CelestialObject × ℕ × ℕ :=
  let typeRand := rnd k
  let commonId : ObjId := ⟨"", typeRand, now, i⟩
  let coords : ℚ × ℚ := ((rnd (k + 1) - 1/2) * 360, (rnd (k + 2) - 1/2) * 180)
  if typeRand < 1/100 then
    (.heart_star { commonId with pre := "heart-" } coords (3/2), shipCount, k + 3)
  else if typeRand < 1/50 then
    (.boost_star { commonId with pre := "boost-" } coords (3/2), shipCount, k + 3)
  else if typeRand < 1/4 ∧ shipCount < maxShipsForLevel then
    let rand := rnd (k + 3)
    let useMk2Ships := 1 < level
    let shipId : ObjId := { commonId with pre := "ship-" }
    if rand < 2/5 then
      let shipType := if useMk2Ships then ShipType.fighterMk2 else ShipType.fighter
      let size := rnd (k + 4) * (1/2) + 4/5
      let velocity : ℚ × ℚ := ((rnd (k + 5) - 1/2) * (2/5), 0)
      (.ship shipId coords size shipType .strafe velocity none, shipCount + 1, k + 6)
    else if rand < 3/5 then
      let shipType := if useMk2Ships then ShipType.interceptorMk2 else ShipType.interceptor
      let size := rnd (k + 4) * (2/5) + 7/10
      let fd := if rnd (k + 5) < 1/2 then FlankDirection.cw else FlankDirection.ccw
      (.ship shipId coords size shipType .flank (0, 0) (some fd), shipCount + 1, k + 6)
    else if rand < 4/5 then
      let shipType := if useMk2Ships then ShipType.cruiserMk2 else ShipType.cruiser
      let size := rnd (k + 4) * (3/5) + 6/5
      (.ship shipId coords size shipType .static (0, 0) none, shipCount + 1, k + 5)
    else if rand < 19/20 then
      let shipType := if useMk2Ships then ShipType.bomberMk2 else ShipType.bomber
      let size := rnd (k + 4) * (7/10) + 3/2
      (.ship shipId coords size shipType .static (0, 0) none, shipCount + 1, k + 5)
    else
      let shipType := if useMk2Ships then ShipType.dreadnoughtMk2 else ShipType.dreadnought
      let size := rnd (k + 4) * (4/5) + 2
      (.ship shipId coords size shipType .static (0, 0) none, shipCount + 1, k + 5)
  else if typeRand < 1/2 then
    (.asteroid { commonId with pre := "asteroid-" } coords (rnd (k + 3) * (6/5) + 4/5),
      shipCount, k + 4)
  else
    (.star { commonId with pre := "star-" } coords (rnd (k + 3) * (3/2) + 1/2)
      (STAR_COLORS.getD (Int.toNat ⌊rnd (k + 4) * (STAR_COLORS.length : ℚ)⌋) "#FFFFFF"),
      shipCount, k + 5)

/-- The slot loop of `generateCelestialObjects`: `fuel` slots starting at slot
index `i`, running ship count `shipCount`, next draw index `k`. -/
def genAux (level maxShipsForLevel now : ℕ) (rnd : ℕ → ℚ) :
    ℕ → ℕ → ℕ → ℕ → List CelestialObject
  | 0, _, _, _ => []
  | fuel + 1, i, shipCount, k =>
    let r := genSlot level maxShipsForLevel now rnd i shipCount k
    r.1 :: genAux level maxShipsForLevel now rnd fuel (i + 1) r.2.1 r.2.2

/-- `generateCelestialObjects` (src/App.tsx 14-68).  The per-call ship cap is
drawn first (stream index 0); the slots then consume the stream from index 1. -/
def generateCelestialObjects (level : ℕ) (now : ℕ) (rnd : ℕ → ℚ) :
    List CelestialObject :=
  genAux level (maxShipsForLevelOf rnd) now rnd CELESTIAL_OBJECT_COUNT 0 0 1

/-! ### Simulation state and combat resolver (src/App.tsx 82-371) -/

/-- The simulation-relevant React state of `App` (src/App.tsx 84-98).
`galaxyInfoLoaded` stands for `galaxyInfo !== null`; the purely visual state
(lasers, explosions, hit flash, modals, laser colour) is side output and not
carried here. -/
structure AppState where
  gameState : GameState
  celestialObjects : List CelestialObject
  score : ℕ
  highScore : ℕ
  playerHealth : ℤ
  ultraBoostCount : ℕ
  level : ℕ
  galaxyInfoLoaded : Bool
  deriving DecidableEq, Repr

/-- `counts.ships` (src/App.tsx 106). -/
def shipsCount (objs : List CelestialObject) : ℕ :=
  (objs.filter (fun o => o.isShip)).length

/-- `destroyTarget` (src/App.tsx 259-320) restricted to the simulation state:
the type-dispatched score / health / charge effect, then removal of every
object whose id equals the target id.  The explosion effect is side output. -/
def destroyTarget (target : CelestialObject) (s : AppState) : AppState :=
  let s1 :=
    match target with
    | .ship _ _ _ st _ _ _ =>
      let newScore := s.score + ENEMY_SCORES st
      { s with score := newScore
               highScore := if s.highScore < newScore then newScore else s.highScore }
    | .heart_star _ _ _ =>
      { s with playerHealth := min MAX_PLAYER_HEALTH (s.playerHealth + HEALTH_REWARD) }
    | .boost_star _ _ _ =>
      { s with ultraBoostCount := s.ultraBoostCount + BOOST_REWARD }
    | _ => s
  { s1 with celestialObjects := s1.celestialObjects.filter (fun o => o.oid != target.oid) }

/-- `fireOnTarget` (src/App.tsx 322-334) flattened through its two timers:
guard on IDLE, transition to FIRING, destruction at 200ms, back to IDLE at
500ms. -/
def fireOnTarget (target : CelestialObject) (s : AppState) : AppState :=
  if s.gameState ≠ GameState.IDLE then s
  else
    let s1 := { s with gameState := GameState.FIRING }
    let s2 := destroyTarget target s1
    { s2 with gameState := GameState.IDLE }

/-- The visible hostiles enumerated by `fireUltraBoost` (src/App.tsx 343-351).
The orthographic projection and the distance-to-centre test are external to
the simulation state and are abstracted into the predicate `vis` (an object
passes iff its projection exists and lies within the projected disc). -/
def visibleHostiles (vis : CelestialObject → Bool) (objs : List CelestialObject) :
    List CelestialObject :=
  (objs.filter (fun o => o.isShip)).filter vis

/-- `fireUltraBoost` (src/App.tsx 336-361) flattened through its timers:
guard, charge decrement, FIRING, staggered destruction of every visible
hostile, and return to IDLE.  The second component is the delay in
milliseconds of the final return-to-IDLE timer (`none` when the call was a
no-op and no timer was armed). -/
def fireUltraBoost (vis : CelestialObject → Bool) (s : AppState) :
    AppState × Option ℕ :=
  if s.gameState ≠ GameState.IDLE ∨ s.ultraBoostCount = 0 then (s, none)
  else
    let s1 := { s with ultraBoostCount := s.ultraBoostCount - 1
                       gameState := GameState.FIRING }
    let vh := visibleHostiles vis s.celestialObjects
    let s2 := vh.foldl (fun st h => destroyTarget h st) s1
    ({ s2 with gameState := GameState.IDLE }, some (500 + vh.length * 50))

/-- The state `fireUltraBoost` leaves synchronously, before any of its timers
fire (src/App.tsx 340-341): one charge consumed and the phase at FIRING. -/
def fireUltraBoostImmediate (_vis : CelestialObject → Bool) (s : AppState) : AppState :=
  if s.gameState ≠ GameState.IDLE ∨ s.ultraBoostCount = 0 then s
  else { s with ultraBoostCount := s.ultraBoostCount - 1
                gameState := GameState.FIRING }

/-- The destruction schedule armed by `fireUltraBoost` (src/App.tsx 353-358):
the i-th visible hostile is destroyed `i * 50` milliseconds after the call. -/
def fireUltraBoostSchedule (vis : CelestialObject → Bool) (s : AppState) :
    List (ℕ × CelestialObject) :=
  if s.gameState ≠ GameState.IDLE ∨ s.ultraBoostCount = 0 then []
  else (visibleHostiles vis s.celestialObjects).enum.map (fun p => (p.1 * 50, p.2))

/-- The synchronous prefix of `setupNewGalaxy` (src/App.tsx 114-129): the state
set before the `await` of `generateGalaxyInfo`. -/
def setupNewGalaxyStart (levelToGenerate : ℕ) (isRestart : Bool) (s : AppState) :
    AppState :=
  let s1 := { s with gameState := GameState.GENERATING
                     celestialObjects := []
                     galaxyInfoLoaded := false }
  if isRestart then
    { s1 with level := 1
              score := 0
              ultraBoostCount := 5
              playerHealth := MAX_PLAYER_HEALTH }
  else
    { s1 with level := levelToGenerate }

/-- The continuation of `setupNewGalaxy` after the `await` (src/App.tsx
131-134): narrative stored, population regenerated, phase to IDLE. -/
def setupNewGalaxyFinish (levelToGenerate now : ℕ) (rnd : ℕ → ℚ) (s : AppState) :
    AppState :=
  { s with galaxyInfoLoaded := true
           celestialObjects := generateCelestialObjects levelToGenerate now rnd
           gameState := GameState.IDLE }

/-- `setupNewGalaxy` run to completion. -/
def setupNewGalaxy (levelToGenerate : ℕ) (isRestart : Bool) (now : ℕ)
    (rnd : ℕ → ℚ) (s : AppState) : AppState :=
  setupNewGalaxyFinish levelToGenerate now rnd
    (setupNewGalaxyStart levelToGenerate isRestart s)

/-- `handleQuantumLeap` (src/App.tsx 245-257) flattened through its timer:
guard on IDLE, LEAPING, then at 1500ms GENERATING, narrative fetch,
regeneration with the captured (unchanged) `level`, and IDLE.  `setLevel` is
never called on this path. -/
def handleQuantumLeap (now : ℕ) (rnd : ℕ → ℚ) (s : AppState) : AppState :=
  if s.gameState ≠ GameState.IDLE then s
  else
    let s1 := { s with gameState := GameState.LEAPING }
    { s1 with gameState := GameState.IDLE
              galaxyInfoLoaded := true
              celestialObjects := generateCelestialObjects s.level now rnd }

/-- The guard of the level-clear auto-leap effect (src/App.tsx 145). -/
def autoLeapCheck (s : AppState) : Bool :=
  shipsCount s.celestialObjects == 0 && s.gameState == GameState.IDLE &&
    decide (0 < s.celestialObjects.length) && s.galaxyInfoLoaded

/-- The level-clear auto-leap effect (src/App.tsx 144-152) flattened through
its 2000ms timer: LEAPING, then `setupNewGalaxy (level + 1) false`. -/
def autoLeap (now : ℕ) (rnd : ℕ → ℚ) (s : AppState) : AppState :=
  if autoLeapCheck s then
    setupNewGalaxy (s.level + 1) false now rnd { s with gameState := GameState.LEAPING }
  else s

/-- The game-over effect (src/App.tsx 154-159). -/
def checkGameOver (s : AppState) : AppState :=
  if s.playerHealth ≤ 0 ∧ s.gameState ≠ GameState.GAME_OVER then
    { s with gameState := GameState.GAME_OVER }
  else s

/-- `togglePause` (src/App.tsx 367-371). -/
def togglePause (s : AppState) : AppState :=
  if s.gameState = GameState.PAUSED then { s with gameState := GameState.IDLE }
  else if s.gameState = GameState.IDLE then { s with gameState := GameState.PAUSED }
  else s

/-- `Math.max(0, h - ENEMY_LASER_DAMAGE)` (src/App.tsx 184). -/
def applyEnemyDamage (health : ℤ) : ℤ :=
  max 0 (health - ENEMY_LASER_DAMAGE)

/-- The arming condition of the enemy-fire effect (src/App.tsx 161-162): the
interval exists only when the `gameState` captured by the effect closure is
IDLE. -/
def enemyFireArms (capturedGameState : GameState) : Bool :=
  capturedGameState == GameState.IDLE

/-- Resolution of an in-flight enemy shot, 1000ms after it was fired
(src/App.tsx 181-189).  `captured` is the `gameState` the effect closure
captured when it armed the interval that scheduled the shot; `current` is the
live phase at the moment the timeout fires.  The suppression test on line 183
reads the closure variable `gameState` — a constant of the render that created
the closure — i.e. `captured`; `current` does not enter the computation. -/
def resolveEnemyShot (captured _current : GameState) (health : ℤ) : ℤ :=
  if captured ≠ GameState.LEAPING ∧ captured ≠ GameState.GENERATING then
    applyEnemyDamage health
  else health

/-- One resolved enemy hit on the running game, followed by the game-over
effect that a health change triggers: damage (src/App.tsx 184), then the
health-zero check (154-159).  `captured` and `current` as in
`resolveEnemyShot`. -/
def enemyHitStep (captured current : GameState) (s : AppState) : AppState :=
  checkGameOver { s with playerHealth := resolveEnemyShot captured current s.playerHealth }

/-- The phase-machine triggers of §4.5, as dispatched by the source handlers
and effects. -/
inductive Trigger
  | fire (target : CelestialObject)
  | ultraBoost (vis : CelestialObject → Bool)
  | leap (now : ℕ) (rnd : ℕ → ℚ)
  | pauseToggle
  | autoClear (now : ℕ) (rnd : ℕ → ℚ)
  | healthZero
  | restart

/-- Dispatch of a trigger to its source handler.  `restart` is the restart
button of the game-over modal (src/App.tsx 387), which calls
`setupNewGalaxy(1, true)`; its synchronous prefix is the observable
transition. -/
def step : Trigger → AppState → AppState
  | .fire target, s => fireOnTarget target s
  | .ultraBoost vis, s => (fireUltraBoost vis s).1
  | .leap now rnd, s => handleQuantumLeap now rnd s
  | .pauseToggle, s => togglePause s
  | .autoClear now rnd, s => autoLeap now rnd s
  | .healthZero, s => checkGameOver s
  | .restart, s => setupNewGalaxyStart 1 true s

/-- The score increment applied by `destroyTarget`: `ENEMY_SCORES[shipType]`
for a ship, nothing for the other variants (src/App.tsx 263-295). -/
def scoreValue : CelestialObject → ℕ
  | .ship _ _ _ st _ _ _ => ENEMY_SCORES st
  | _ => 0

/-! ### Concrete sample data used to evaluate the development -/

/-- A constant draw stream: every `Math.random()` call returns `1/10`. -/
def sampleRnd : ℕ → ℚ := fun _ => 1/10

/-- A constant draw stream returning `1/4`, placing each slot's `typeRand` on
the ship/asteroid threshold. -/
def sampleRndQuarter : ℕ → ℚ := fun _ => 1/4

def sampleAsteroid : CelestialObject :=
  .asteroid ⟨"asteroid-", 0, 0, 0⟩ (10, 20) 1

def sampleStar : CelestialObject :=
  .star ⟨"star-", 1, 0, 1⟩ (30, -40) 1 "#FFFFFF"

def sampleShip : CelestialObject :=
  .ship ⟨"ship-", 0, 0, 2⟩ (50, 60) 1 .fighter .strafe (0, 0) none

def sampleHeart : CelestialObject :=
  .heart_star ⟨"heart-", 0, 0, 3⟩ (-70, 5) 2

/-- A game-over state with arbitrary non-reset statistics. -/
def sampleGameOverState : AppState :=
  ⟨GameState.GAME_OVER, [sampleAsteroid], 3, 7, 0, 2, 4, true⟩

/-- A fresh idle state at full health with an empty population. -/
def sampleFullHealthIdle : AppState :=
  ⟨GameState.IDLE, [], 0, 0, 100, 5, 1, true⟩

/-- An idle mid-game state whose population holds an asteroid, a star, a ship
and a heart star. -/
def sampleCombatState : AppState :=
  ⟨GameState.IDLE, [sampleAsteroid, sampleStar, sampleShip, sampleHeart], 0, 0, 95, 5, 1, true⟩

/-! ### Flanking movement (src/App.tsx 216-234)

The flank branch of `animateShips` treats `(longitude, latitude)` as Cartesian
coordinates, computes `r = Math.sqrt(lon**2 + lat**2)` and
`theta = Math.atan2(lat, lon)`, advances the angle by `0.005` (decreasing for
`cw`), recomputes the point, clamps latitude to `[-90, 90]` and wraps
longitude into `[-180, 180]`.  `Math.atan2(lat, lon)` is the argument of the
complex number `lon + lat*I`, so it is embedded through `Complex.arg`; the
arithmetic is over `ℝ`. -/

noncomputable section

/-- The signed angular increment of one flank tick: `angularSpeed = 0.005`,
negated for `cw` (src/App.tsx 222-224). -/
def flankDelta (fd : FlankDirection) : ℝ :=
  if fd = FlankDirection.cw then -0.005 else 0.005

/-- The two sequential longitude wrap tests of the flank branch (src/App.tsx
231-232): subtract 360 when above 180, then add 360 when below -180. -/
def wrapLon (x : ℝ) : ℝ :=
  let x1 := if 180 < x then x - 360 else x
  if x1 < -180 then x1 + 360 else x1

/-- The latitude clamp of the flank branch (src/App.tsx 229). -/
def clampLat (x : ℝ) : ℝ :=
  max (-90) (min 90 x)

/-- One tick of the flank branch of `animateShips` (src/App.tsx 216-234),
returning the new `(longitude, latitude)`. -/
def flankStep (fd : FlankDirection) (lon lat : ℝ) : ℝ × ℝ :=
  let r := Real.sqrt (lon ^ 2 + lat ^ 2)
  if r = 0 then (0.1, 0)
  else
    let theta := Complex.arg ⟨lon, lat⟩
    let newTheta := theta + flankDelta fd
    let newLon := r * Real.cos newTheta
    let newLat0 := r * Real.sin newTheta
    (wrapLon newLon, clampLat newLat0)

end

/-! ## Shared lemmas about `destroyTarget` -/

theorem destroyTarget_objects (t : CelestialObject) (s : AppState) :
    (destroyTarget t s).celestialObjects =
      s.celestialObjects.filter (fun o => o.oid != t.oid) := by
  cases t <;> rfl

theorem destroyTarget_score (t : CelestialObject) (s : AppState) :
    (destroyTarget t s).score = s.score + scoreValue t := by
  cases t <;> rfl

theorem destroyTarget_highScore_of_not_ship (t : CelestialObject) (s : AppState)
    (h : t.isShip = false) : (destroyTarget t s).highScore = s.highScore := by
  cases t <;> first
    | rfl
    | simp [CelestialObject.isShip, CelestialObject.kind] at h

theorem destroyTarget_playerHealth_of_ship (t : CelestialObject) (s : AppState)
    (h : t.isShip = true) : (destroyTarget t s).playerHealth = s.playerHealth := by
  cases t <;> first
    | rfl
    | simp [CelestialObject.isShip, CelestialObject.kind] at h

theorem destroyTarget_ultraBoostCount_of_ship (t : CelestialObject) (s : AppState)
    (h : t.isShip = true) : (destroyTarget t s).ultraBoostCount = s.ultraBoostCount := by
  cases t <;> first
    | rfl
    | simp [CelestialObject.isShip, CelestialObject.kind] at h

theorem destroyTarget_gameState (t : CelestialObject) (s : AppState) :
    (destroyTarget t s).gameState = s.gameState := by
  cases t <;> rfl

/-! ## C1 — enemy-fire resolution and the phase at resolution time -/

/-- C1: the claim says enemy return fire resolved while the phase is LEAPING
or GENERATING applies no damage, the suppression being decided by the phase
value at resolution time.  The code cannot do this: the enemy-fire effect arms
its interval only when the `gameState` its closure captured is IDLE
(src/App.tsx 162), and the suppression test inside the 1000ms resolution
timeout (line 183) reads that same closure variable, which is therefore always
IDLE — never LEAPING or GENERATING.  Evaluated at the failing input: a shot
armed under IDLE and resolved while the live phase is LEAPING (or GENERATING)
still deals 5 damage, dropping health 100 to 95 where the claim requires 100;
the IDLE/FIRING/PAUSED part of the claim (5 damage applied) does hold, and
holds for every live phase. -/
theorem c1_enemy_fire_resolution_ignores_live_phase :
    enemyFireArms GameState.IDLE = true ∧
    resolveEnemyShot GameState.IDLE GameState.LEAPING 100 = 95 ∧
    resolveEnemyShot GameState.IDLE GameState.GENERATING 100 = 95 ∧
    (∀ current : GameState, ∀ health : ℤ,
      resolveEnemyShot GameState.IDLE current health = applyEnemyDamage health) := by
  refine ⟨rfl, by decide, by decide, fun current health => ?_⟩
  simp [resolveEnemyShot]

/-! ## C5 — GAME_OVER is terminal except for restart -/

/-- C5: from GAME_OVER every trigger except restart is a no-op (the phase in
particular stays GAME_OVER), and restart transitions to GENERATING with the
full reset level→1, score→0, health→100, boost charges→5. -/
theorem c5_game_over_terminal (s : AppState)
    (h : s.gameState = GameState.GAME_OVER) :
    (∀ t : Trigger, t ≠ Trigger.restart → step t s = s) ∧
    (step Trigger.restart s).gameState = GameState.GENERATING ∧
    (step Trigger.restart s).level = 1 ∧
    (step Trigger.restart s).score = 0 ∧
    (step Trigger.restart s).playerHealth = 100 ∧
    (step Trigger.restart s).ultraBoostCount = 5 := by
  constructor
  · intro t ht
    cases t with
    | fire target => simp [step, fireOnTarget, h]
    | ultraBoost vis => simp [step, fireUltraBoost, h]
    | leap now rnd => simp [step, handleQuantumLeap, h]
    | pauseToggle => simp [step, togglePause, h]
    | autoClear now rnd => simp [step, autoLeap, autoLeapCheck, h]
    | healthZero => simp [step, checkGameOver, h]
    | restart => exact absurd rfl ht
  · exact ⟨rfl, rfl, rfl, rfl, rfl⟩

/-- Witness for C5 at a concrete game-over state. -/
theorem c5_game_over_terminal_witness :
    sampleGameOverState.gameState = GameState.GAME_OVER ∧
    ((∀ t : Trigger, t ≠ Trigger.restart → step t sampleGameOverState = sampleGameOverState) ∧
      (step Trigger.restart sampleGameOverState).gameState = GameState.GENERATING ∧
      (step Trigger.restart sampleGameOverState).level = 1 ∧
      (step Trigger.restart sampleGameOverState).score = 0 ∧
      (step Trigger.restart sampleGameOverState).playerHealth = 100 ∧
      (step Trigger.restart sampleGameOverState).ultraBoostCount = 5) :=
  ⟨rfl, c5_game_over_terminal sampleGameOverState rfl⟩

/-! ## C6 — player health stays within [0, 100] -/

set_option maxRecDepth 4000 in
/-- C6: health is clamped into [0, 100] by every health-touching operation:
the heart-star reward clamps at 100 (95 ↦ exactly 100), destruction of any
target keeps health in range, enemy damage keeps health in range, and the
scenario of 20 successive enemy hits of 5 resolved during IDLE from full
health ends at exactly 0 with the phase at GAME_OVER. -/
theorem c6_health_clamped :
    (∀ (s : AppState) (i : ObjId) (c : ℚ × ℚ) (sz : ℚ), s.playerHealth = 95 →
      (destroyTarget (CelestialObject.heart_star i c sz) s).playerHealth = 100) ∧
    (∀ (s : AppState) (t : CelestialObject),
      0 ≤ s.playerHealth → s.playerHealth ≤ 100 →
      0 ≤ (destroyTarget t s).playerHealth ∧ (destroyTarget t s).playerHealth ≤ 100) ∧
    (∀ health : ℤ, 0 ≤ health → health ≤ 100 →
      0 ≤ applyEnemyDamage health ∧ applyEnemyDamage health ≤ 100) ∧
    ((enemyHitStep GameState.IDLE GameState.IDLE)^[20] sampleFullHealthIdle).playerHealth = 0 ∧
    ((enemyHitStep GameState.IDLE GameState.IDLE)^[20] sampleFullHealthIdle).gameState =
      GameState.GAME_OVER := by
  refine ⟨?_, ?_, ?_, by decide, by decide⟩
  · intro s i c sz h95
    simp [destroyTarget, MAX_PLAYER_HEALTH, HEALTH_REWARD, h95]
  · intro s t h0 h100
    cases t <;>
      simp [destroyTarget, MAX_PLAYER_HEALTH, HEALTH_REWARD] <;> omega
  · intro health h0 h100
    simp only [applyEnemyDamage, ENEMY_LASER_DAMAGE]
    omega

/-- Witness for C6 at concrete inputs: the heart-star reward at health 95 and
the bounds after destroying a heart star at health 95. -/
theorem c6_health_clamped_witness :
    sampleCombatState.playerHealth = 95 ∧
    (destroyTarget sampleHeart sampleCombatState).playerHealth = 100 ∧
    (0 ≤ (destroyTarget sampleStar sampleCombatState).playerHealth ∧
      (destroyTarget sampleStar sampleCombatState).playerHealth ≤ 100) ∧
    (0 ≤ applyEnemyDamage 100 ∧ applyEnemyDamage 100 ≤ 100) :=
  ⟨rfl,
    c6_health_clamped.1 sampleCombatState ⟨"heart-", 0, 0, 3⟩ (-70, 5) 2 rfl,
    c6_health_clamped.2.1 sampleCombatState sampleStar (by decide) (by decide),
    c6_health_clamped.2.2.1 100 (by decide) (by decide)⟩

/-! ## C10 — destroyTarget removes exactly its target -/

theorem filter_oid_ne_eq_erase (t : CelestialObject) :
    ∀ l : List CelestialObject, t ∈ l → (l.map (fun o => o.oid)).Nodup →
      l.filter (fun o => o.oid != t.oid) = l.erase t := by
  intro l
  induction l with
  | nil => intro hmem; exact absurd hmem (List.not_mem_nil t)
  | cons a l ih =>
    intro hmem hnd
    rw [List.map_cons, List.nodup_cons] at hnd
    obtain ⟨ha, hl⟩ := hnd
    rcases List.mem_cons.mp hmem with heq | htl
    · subst heq
      rw [List.erase_cons_head, List.filter_cons_of_neg (by simp)]
      refine List.filter_eq_self.mpr ?_
      intro o ho
      have : o.oid ≠ t.oid := by
        intro he
        exact ha (he ▸ List.mem_map_of_mem (fun o => o.oid) ho)
      simpa using this
    · have hne : a.oid ≠ t.oid := by
        intro he
        exact ha (he ▸ List.mem_map_of_mem (fun o => o.oid) htl)
      have hane : a ≠ t := fun he => hne (he ▸ rfl)
      rw [List.filter_cons_of_pos (by simpa using hne),
        List.erase_cons_tail (by simpa using hane), ih htl hl]

/-- C10: `destroyTarget` removes exactly the targeted entity from the
population (under the id-uniqueness invariant), leaving every other entity
unchanged and in order; destroying a non-ship target leaves score and high
score unchanged, and destroying a ship leaves player health and the
boost-charge count unchanged. -/
theorem c10_destroyTarget_exact (s : AppState) (t : CelestialObject)
    (hmem : t ∈ s.celestialObjects)
    (hids : (s.celestialObjects.map (fun o => o.oid)).Nodup) :
    (destroyTarget t s).celestialObjects = s.celestialObjects.erase t ∧
    (t.isShip = false →
      (destroyTarget t s).score = s.score ∧
      (destroyTarget t s).highScore = s.highScore) ∧
    (t.isShip = true →
      (destroyTarget t s).playerHealth = s.playerHealth ∧
      (destroyTarget t s).ultraBoostCount = s.ultraBoostCount) := by
  refine ⟨?_, ?_, ?_⟩
  · rw [destroyTarget_objects]
    exact filter_oid_ne_eq_erase t s.celestialObjects hmem hids
  · intro h
    have hz : scoreValue t = 0 := by
      cases t <;> first
        | rfl
        | simp [CelestialObject.isShip, CelestialObject.kind] at h
    refine ⟨?_, destroyTarget_highScore_of_not_ship t s h⟩
    rw [destroyTarget_score, hz, Nat.add_zero]
  · intro h
    exact ⟨destroyTarget_playerHealth_of_ship t s h,
      destroyTarget_ultraBoostCount_of_ship t s h⟩

/-- Witness for C10 at a concrete population: destroying the asteroid of
`sampleCombatState`. -/
theorem c10_destroyTarget_exact_witness :
    (sampleAsteroid ∈ sampleCombatState.celestialObjects ∧
      (sampleCombatState.celestialObjects.map (fun o => o.oid)).Nodup) ∧
    (destroyTarget sampleAsteroid sampleCombatState).celestialObjects =
      sampleCombatState.celestialObjects.erase sampleAsteroid ∧
    (sampleAsteroid.isShip = false →
      (destroyTarget sampleAsteroid sampleCombatState).score = sampleCombatState.score ∧
      (destroyTarget sampleAsteroid sampleCombatState).highScore =
        sampleCombatState.highScore) ∧
    (sampleAsteroid.isShip = true →
      (destroyTarget sampleAsteroid sampleCombatState).playerHealth =
        sampleCombatState.playerHealth ∧
      (destroyTarget sampleAsteroid sampleCombatState).ultraBoostCount =
        sampleCombatState.ultraBoostCount) :=
  ⟨⟨by decide, by decide⟩,
    c10_destroyTarget_exact sampleCombatState sampleAsteroid (by decide) (by decide)⟩

/-! ## C4 — fireUltraBoost -/

theorem foldl_destroy_objects (hs : List CelestialObject) (s : AppState) :
    (hs.foldl (fun st h => destroyTarget h st) s).celestialObjects =
      s.celestialObjects.filter (fun o => hs.all (fun h => o.oid != h.oid)) := by
  induction hs generalizing s with
  | nil => simp
  | cons h hs ih =>
    rw [List.foldl_cons, ih, destroyTarget_objects, List.filter_filter]
    refine List.filter_congr ?_
    intro o _
    simp [Bool.and_comm]

theorem foldl_destroy_score (hs : List CelestialObject) (s : AppState) :
    (hs.foldl (fun st h => destroyTarget h st) s).score =
      s.score + (hs.map scoreValue).sum := by
  induction hs generalizing s with
  | nil => simp
  | cons h hs ih =>
    rw [List.foldl_cons, ih, destroyTarget_score, List.map_cons, List.sum_cons]
    omega

theorem foldl_destroy_playerHealth (hs : List CelestialObject) (s : AppState)
    (hships : ∀ h ∈ hs, h.isShip = true) :
    (hs.foldl (fun st h => destroyTarget h st) s).playerHealth = s.playerHealth := by
  induction hs generalizing s with
  | nil => rfl
  | cons h hs ih =>
    rw [List.foldl_cons, ih _ (fun x hx => hships x (List.mem_cons_of_mem h hx)),
      destroyTarget_playerHealth_of_ship h s (hships h (List.mem_cons_self h hs))]

theorem foldl_destroy_ultraBoostCount (hs : List CelestialObject) (s : AppState)
    (hships : ∀ h ∈ hs, h.isShip = true) :
    (hs.foldl (fun st h => destroyTarget h st) s).ultraBoostCount = s.ultraBoostCount := by
  induction hs generalizing s with
  | nil => rfl
  | cons h hs ih =>
    rw [List.foldl_cons, ih _ (fun x hx => hships x (List.mem_cons_of_mem h hx)),
      destroyTarget_ultraBoostCount_of_ship h s (hships h (List.mem_cons_self h hs))]

theorem visibleHostiles_eq_filter (vis : CelestialObject → Bool)
    (objs : List CelestialObject) :
    visibleHostiles vis objs = objs.filter (fun o => o.isShip && vis o) := by
  rw [visibleHostiles, List.filter_filter]
  refine List.filter_congr ?_
  intro o _
  exact Bool.and_comm (vis o) o.isShip

theorem visibleHostiles_ships (vis : CelestialObject → Bool)
    (objs : List CelestialObject) :
    ∀ h ∈ visibleHostiles vis objs, h.isShip = true := by
  intro h hh
  rw [visibleHostiles_eq_filter] at hh
  have := List.of_mem_filter hh
  exact (Bool.and_eq_true _ _).mp this |>.1

theorem all_oid_ne_visibleHostiles (vis : CelestialObject → Bool)
    (objs : List CelestialObject) (hids : (objs.map (fun o => o.oid)).Nodup)
    (o : CelestialObject) (ho : o ∈ objs) :
    (visibleHostiles vis objs).all (fun h => o.oid != h.oid) = !(o.isShip && vis o) := by
  rw [visibleHostiles_eq_filter]
  by_cases hsv : (o.isShip && vis o) = true
  · rw [hsv]
    refine List.all_eq_false.mpr ⟨o, List.mem_filter.mpr ⟨ho, hsv⟩, by simp⟩
  · rw [Bool.eq_false_iff.mpr hsv, Bool.not_false]
    refine List.all_eq_true.mpr ?_
    intro h hh
    have hmem := List.mem_filter.mp hh
    have hne : o ≠ h := by
      intro he
      exact hsv (he ▸ hmem.2)
    have : o.oid ≠ h.oid := by
      intro he
      exact hne (List.inj_on_of_nodup_map hids ho hmem.1 he)
    simpa using this

/-- C4: `fireUltraBoost` is a no-op unless the phase is IDLE and the
boost-charge count is strictly positive (in particular a request with zero
charges changes nothing and arms no timer); when it runs it consumes one
charge and transitions to FIRING, destroys exactly the currently visible
enemy ships — each destruction scoring independently, staggered 50ms
apart — leaves player health untouched, and returns the phase to IDLE after
`500 + 50 × destroyedCount` milliseconds. -/
theorem c4_fireUltraBoost_spec (vis : CelestialObject → Bool) (s : AppState) :
    (s.gameState ≠ GameState.IDLE ∨ s.ultraBoostCount = 0 →
      fireUltraBoost vis s = (s, none) ∧
      fireUltraBoostImmediate vis s = s ∧
      fireUltraBoostSchedule vis s = []) ∧
    (s.gameState = GameState.IDLE → 0 < s.ultraBoostCount →
      (s.celestialObjects.map (fun o => o.oid)).Nodup →
      (fireUltraBoostImmediate vis s).gameState = GameState.FIRING ∧
      (fireUltraBoostImmediate vis s).ultraBoostCount = s.ultraBoostCount - 1 ∧
      (fireUltraBoost vis s).1.ultraBoostCount = s.ultraBoostCount - 1 ∧
      (fireUltraBoost vis s).1.gameState = GameState.IDLE ∧
      (fireUltraBoost vis s).1.playerHealth = s.playerHealth ∧
      (fireUltraBoost vis s).1.celestialObjects =
        s.celestialObjects.filter (fun o => !(o.isShip && vis o)) ∧
      (fireUltraBoost vis s).1.score =
        s.score + ((visibleHostiles vis s.celestialObjects).map scoreValue).sum ∧
      (visibleHostiles vis s.celestialObjects).length +
          (fireUltraBoost vis s).1.celestialObjects.length =
        s.celestialObjects.length ∧
      (fireUltraBoost vis s).2 =
        some (500 + 50 * (visibleHostiles vis s.celestialObjects).length) ∧
      (fireUltraBoostSchedule vis s).map Prod.fst =
        (List.range (visibleHostiles vis s.celestialObjects).length).map (fun i => i * 50) ∧
      (fireUltraBoostSchedule vis s).map Prod.snd = visibleHostiles vis s.celestialObjects) := by
  constructor
  · intro hguard
    exact ⟨by simp [fireUltraBoost, hguard], by simp [fireUltraBoostImmediate, hguard],
      by simp [fireUltraBoostSchedule, hguard]⟩
  · intro hidle hcount hids
    have hguard : ¬(s.gameState ≠ GameState.IDLE ∨ s.ultraBoostCount = 0) := by
      push_neg
      exact ⟨hidle, by omega⟩
    have hships := visibleHostiles_ships vis s.celestialObjects
    have hobjs :
        (fireUltraBoost vis s).1.celestialObjects =
          s.celestialObjects.filter (fun o => !(o.isShip && vis o)) := by
      simp only [fireUltraBoost, if_neg hguard]
      rw [foldl_destroy_objects]
      refine List.filter_congr ?_
      intro o ho
      exact all_oid_ne_visibleHostiles vis s.celestialObjects hids o ho
    refine ⟨by simp [fireUltraBoostImmediate, if_neg hguard],
      by simp [fireUltraBoostImmediate, if_neg hguard], ?_, ?_, ?_, hobjs, ?_, ?_, ?_, ?_, ?_⟩
    · simp only [fireUltraBoost, if_neg hguard]
      rw [foldl_destroy_ultraBoostCount _ _ hships]
    · simp [fireUltraBoost, if_neg hguard]
    · simp only [fireUltraBoost, if_neg hguard]
      rw [foldl_destroy_playerHealth _ _ hships]
    · simp only [fireUltraBoost, if_neg hguard]
      rw [foldl_destroy_score]
    · rw [hobjs, visibleHostiles_eq_filter]
      have := List.length_eq_length_filter_add
        (l := s.celestialObjects) (fun o => o.isShip && vis o)
      omega
    · simp only [fireUltraBoost, if_neg hguard]
      rw [Nat.mul_comm]
    · rw [fireUltraBoostSchedule, if_neg hguard, List.map_map]
      have hcomp : (Prod.fst ∘ fun p : ℕ × CelestialObject => (p.1 * 50, p.2)) =
          (fun i => i * 50) ∘ Prod.fst := rfl
      rw [hcomp, ← List.map_map, List.enum_map_fst]
    · rw [fireUltraBoostSchedule, if_neg hguard, List.map_map]
      have hcomp : (Prod.snd ∘ fun p : ℕ × CelestialObject => (p.1 * 50, p.2)) =
          Prod.snd := rfl
      rw [hcomp, List.enum_map_snd]

/-- Witness for C4: the boost fired at `sampleCombatState` with everything
visible destroys exactly the one ship, and a zero-charge request at the same
state is a no-op. -/
theorem c4_fireUltraBoost_spec_witness :
    (sampleCombatState.gameState = GameState.IDLE ∧ 0 < sampleCombatState.ultraBoostCount ∧
      (sampleCombatState.celestialObjects.map (fun o => o.oid)).Nodup) ∧
    (fireUltraBoost (fun _ => true) sampleCombatState).1.ultraBoostCount =
      sampleCombatState.ultraBoostCount - 1 ∧
    (fireUltraBoost (fun _ => true) sampleCombatState).1.celestialObjects =
      sampleCombatState.celestialObjects.filter (fun o => !(o.isShip && true)) ∧
    (fireUltraBoost (fun _ => true) sampleCombatState).2 =
      some (500 + 50 * (visibleHostiles (fun _ => true)
        sampleCombatState.celestialObjects).length) ∧
    fireUltraBoost (fun _ => true) { sampleCombatState with ultraBoostCount := 0 } =
      ({ sampleCombatState with ultraBoostCount := 0 }, none) := by
  have h := c4_fireUltraBoost_spec (fun _ => true) sampleCombatState
  have hmain := h.2 rfl (by decide) (by decide)
  have hz := (c4_fireUltraBoost_spec (fun _ => true)
    { sampleCombatState with ultraBoostCount := 0 }).1 (Or.inr rfl)
  exact ⟨⟨rfl, by decide, by decide⟩, hmain.2.2.1, hmain.2.2.2.2.2.1, hmain.2.2.2.2.2.2.2.2.1,
    hz.1⟩

/-! ## Generator lemmas (src/App.tsx 14-68) -/

theorem genSlot_oid_slot (level cap now : ℕ) (rnd : ℕ → ℚ) (i sc k : ℕ) :
    ((genSlot level cap now rnd i sc k).1).oid.slot = i := by
  simp only [genSlot]
  split_ifs <;> rfl

theorem genSlot_coords (level cap now : ℕ) (rnd : ℕ → ℚ) (i sc k : ℕ) :
    ((genSlot level cap now rnd i sc k).1).coordinates =
      ((rnd (k + 1) - 1/2) * 360, (rnd (k + 2) - 1/2) * 180) := by
  simp only [genSlot]
  split_ifs <;> rfl

theorem genSlot_kind (level cap now : ℕ) (rnd : ℕ → ℚ) (i sc k : ℕ) :
    ((genSlot level cap now rnd i sc k).1).kind =
      (if rnd k < 1/100 then ObjKind.heart_star
       else if rnd k < 1/50 then ObjKind.boost_star
       else if rnd k < 1/4 ∧ sc < cap then ObjKind.ship
       else if rnd k < 1/2 then ObjKind.asteroid
       else ObjKind.star) := by
  simp only [genSlot]
  split_ifs <;> rfl

theorem genSlot_shipCount_of_ship (level cap now : ℕ) (rnd : ℕ → ℚ) (i sc k : ℕ)
    (h : ((genSlot level cap now rnd i sc k).1).kind = ObjKind.ship) :
    (genSlot level cap now rnd i sc k).2.1 = sc + 1 := by
  revert h
  simp only [genSlot]
  split_ifs <;> intro h <;> first
    | rfl
    | simp [CelestialObject.kind] at h

theorem genSlot_shipCount_of_not_ship (level cap now : ℕ) (rnd : ℕ → ℚ) (i sc k : ℕ)
    (h : ((genSlot level cap now rnd i sc k).1).kind ≠ ObjKind.ship) :
    (genSlot level cap now rnd i sc k).2.1 = sc := by
  revert h
  simp only [genSlot]
  split_ifs <;> intro h <;> first
    | rfl
    | simp [CelestialObject.kind] at h

theorem genSlot_mk2 (level cap now : ℕ) (rnd : ℕ → ℚ) (i sc k : ℕ) :
    ∀ st, ((genSlot level cap now rnd i sc k).1).shipTypeOf = some st →
      st.isMk2 = decide (1 < level) := by
  intro st
  simp only [genSlot]
  split_ifs <;> simp only [CelestialObject.shipTypeOf] <;> intro hst <;>
    first
      | exact Option.noConfusion hst
      | (injection hst with hst; subst hst; simp [ShipType.isMk2, *])

theorem genAux_length (level cap now : ℕ) (rnd : ℕ → ℚ) :
    ∀ fuel i sc k, (genAux level cap now rnd fuel i sc k).length = fuel := by
  intro fuel
  induction fuel with
  | zero => intro i sc k; rfl
  | succ fuel ih =>
    intro i sc k
    rw [genAux, List.length_cons, ih]

theorem genAux_slot_map (level cap now : ℕ) (rnd : ℕ → ℚ) :
    ∀ fuel i sc k,
      (genAux level cap now rnd fuel i sc k).map (fun o => o.oid.slot) =
        List.range' i fuel := by
  intro fuel
  induction fuel with
  | zero => intro i sc k; rfl
  | succ fuel ih =>
    intro i sc k
    rw [genAux, List.map_cons, ih, genSlot_oid_slot, List.range'_succ]

theorem genAux_coords (level cap now : ℕ) (rnd : ℕ → ℚ)
    (hr : ∀ n, 0 ≤ rnd n ∧ rnd n < 1) :
    ∀ fuel i sc k, ∀ o ∈ genAux level cap now rnd fuel i sc k,
      -180 ≤ o.coordinates.1 ∧ o.coordinates.1 ≤ 180 ∧
      -90 ≤ o.coordinates.2 ∧ o.coordinates.2 ≤ 90 := by
  intro fuel
  induction fuel with
  | zero => intro i sc k o ho; exact absurd ho (List.not_mem_nil o)
  | succ fuel ih =>
    intro i sc k o ho
    rw [genAux] at ho
    rcases List.mem_cons.mp ho with heq | htl
    · subst heq
      rw [genSlot_coords]
      obtain ⟨hl0, hl1⟩ := hr (k + 1)
      obtain ⟨hm0, hm1⟩ := hr (k + 2)
      refine ⟨by linarith, by linarith, by linarith, by linarith⟩
    · exact ih (i + 1) _ _ o htl

theorem genAux_mk2 (level cap now : ℕ) (rnd : ℕ → ℚ) :
    ∀ fuel i sc k, ∀ o ∈ genAux level cap now rnd fuel i sc k,
      ∀ st, o.shipTypeOf = some st → st.isMk2 = decide (1 < level) := by
  intro fuel
  induction fuel with
  | zero => intro i sc k o ho; exact absurd ho (List.not_mem_nil o)
  | succ fuel ih =>
    intro i sc k o ho st hst
    rw [genAux] at ho
    rcases List.mem_cons.mp ho with heq | htl
    · subst heq
      exact genSlot_mk2 level cap now rnd i sc k st hst
    · exact ih (i + 1) _ _ o htl st hst

/-! ## C7 — manual Leap versus level-clear auto-leap -/

/-- C7: both the manual Leap and the level-clear auto-leap regenerate the
entity population, but only the auto-clear path increments the level counter;
after a manual Leap the level — and with it the ship-tier selection of the
regenerated population — is unchanged. -/
theorem c7_leap_level (s : AppState) (now : ℕ) (rnd : ℕ → ℚ)
    (hidle : s.gameState = GameState.IDLE) :
    (handleQuantumLeap now rnd s).level = s.level ∧
    (handleQuantumLeap now rnd s).celestialObjects =
      generateCelestialObjects s.level now rnd ∧
    (∀ o ∈ (handleQuantumLeap now rnd s).celestialObjects,
      ∀ st, o.shipTypeOf = some st → st.isMk2 = decide (1 < s.level)) ∧
    (autoLeapCheck s = true →
      (autoLeap now rnd s).level = s.level + 1 ∧
      (autoLeap now rnd s).celestialObjects =
        generateCelestialObjects (s.level + 1) now rnd) := by
  have hobjs : (handleQuantumLeap now rnd s).celestialObjects =
      generateCelestialObjects s.level now rnd := by
    simp [handleQuantumLeap, hidle]
  refine ⟨by simp [handleQuantumLeap, hidle], hobjs, ?_, ?_⟩
  · intro o ho st hst
    rw [hobjs] at ho
    exact genAux_mk2 s.level _ now rnd _ _ _ _ o ho st hst
  · intro hauto
    constructor <;>
      simp [autoLeap, hauto, setupNewGalaxy, setupNewGalaxyFinish, setupNewGalaxyStart]

/-- Witness for C7 at a concrete idle state whose population was cleared of
ships (so the auto-leap guard holds). -/
theorem c7_leap_level_witness :
    (AppState.mk GameState.IDLE [sampleAsteroid] 0 0 100 5 1 true).gameState =
      GameState.IDLE ∧
    autoLeapCheck (AppState.mk GameState.IDLE [sampleAsteroid] 0 0 100 5 1 true) = true ∧
    (handleQuantumLeap 0 sampleRnd
        (AppState.mk GameState.IDLE [sampleAsteroid] 0 0 100 5 1 true)).level = 1 ∧
    (autoLeap 0 sampleRnd
        (AppState.mk GameState.IDLE [sampleAsteroid] 0 0 100 5 1 true)).level = 2 :=
  ⟨rfl, by decide,
    (c7_leap_level _ 0 sampleRnd rfl).1,
    ((c7_leap_level _ 0 sampleRnd rfl).2.2.2 (by decide)).1⟩

/-! ## C8 — population size, id uniqueness, coordinate ranges -/

/-- C8: every generated population has exactly 500 entities, every entity id
is unique within the population, and every entity's coordinates lie within
longitude [-180, 180] and latitude [-90, 90], for any draw stream valued in
[0, 1). -/
theorem c8_population_invariants (level now : ℕ) (rnd : ℕ → ℚ)
    (hr : ∀ n, 0 ≤ rnd n ∧ rnd n < 1) :
    (generateCelestialObjects level now rnd).length = 500 ∧
    ((generateCelestialObjects level now rnd).map (fun o => o.oid)).Nodup ∧
    (∀ o ∈ generateCelestialObjects level now rnd,
      -180 ≤ o.coordinates.1 ∧ o.coordinates.1 ≤ 180 ∧
      -90 ≤ o.coordinates.2 ∧ o.coordinates.2 ≤ 90) := by
  refine ⟨genAux_length level _ now rnd CELESTIAL_OBJECT_COUNT 0 0 1, ?_, ?_⟩
  · have hslots :
        ((generateCelestialObjects level now rnd).map (fun o => o.oid)).map
            (fun x => x.slot) =
          List.range' 0 CELESTIAL_OBJECT_COUNT := by
      rw [List.map_map]
      exact genAux_slot_map level _ now rnd CELESTIAL_OBJECT_COUNT 0 0 1
    refine List.Nodup.of_map (fun x => x.slot) ?_
    rw [hslots]
    exact List.nodup_range' 0 CELESTIAL_OBJECT_COUNT
  · exact genAux_coords level _ now rnd hr CELESTIAL_OBJECT_COUNT 0 0 1

/-- Witness for C8 with the all-zero draw stream. -/
theorem c8_population_invariants_witness :
    (∀ n : ℕ, 0 ≤ (fun _ : ℕ => (0 : ℚ)) n ∧ (fun _ : ℕ => (0 : ℚ)) n < 1) ∧
    (generateCelestialObjects 1 0 (fun _ => 0)).length = 500 :=
  ⟨fun n => ⟨le_refl 0, by norm_num⟩,
    (c8_population_invariants 1 0 (fun _ => 0)
      (fun n => ⟨le_refl 0, by norm_num⟩)).1⟩

/-! ## C9 — ship tier is decided by the level -/

/-- C9: for a generation call with level L > 1 every generated enemy ship's
shipType is an mk2 variant, and with L = 1 every generated ship is a base
variant. -/
theorem c9_ship_tier_by_level (level now : ℕ) (rnd : ℕ → ℚ) :
    (1 < level → ∀ o ∈ generateCelestialObjects level now rnd,
      ∀ st, o.shipTypeOf = some st → st.isMk2 = true) ∧
    (level = 1 → ∀ o ∈ generateCelestialObjects level now rnd,
      ∀ st, o.shipTypeOf = some st → st.isMk2 = false) := by
  constructor
  · intro hlevel o ho st hst
    rw [genAux_mk2 level _ now rnd CELESTIAL_OBJECT_COUNT 0 0 1 o ho st hst]
    simpa using hlevel
  · intro hlevel o ho st hst
    rw [genAux_mk2 level _ now rnd CELESTIAL_OBJECT_COUNT 0 0 1 o ho st hst]
    subst hlevel
    simp

/-- Witness for C9: level 2 versus level 1 at the all-zero stream. -/
theorem c9_ship_tier_by_level_witness :
    ((1 : ℕ) < 2 ∧ (∀ o ∈ generateCelestialObjects 2 0 (fun _ => 0),
      ∀ st, o.shipTypeOf = some st → st.isMk2 = true)) ∧
    ((1 : ℕ) = 1 ∧ (∀ o ∈ generateCelestialObjects 1 0 (fun _ => 0),
      ∀ st, o.shipTypeOf = some st → st.isMk2 = false)) :=
  ⟨⟨by norm_num, (c9_ship_tier_by_level 2 0 (fun _ => 0)).1 (by norm_num)⟩,
    ⟨rfl, (c9_ship_tier_by_level 1 0 (fun _ => 0)).2 rfl⟩⟩

/-! ## C2 — the slot categorization thresholds -/

/-- C2 (amended): each slot draws one value `rnd k` and is categorized by
fixed thresholds in priority order: heart-star below 1%, boost-star on the
next 1%, enemy ship on the next 23% — the band `[0.02, 0.25)`, not 24% —
subject to the per-call cap, asteroid on the next 25%, star on the remainder;
a would-be-ship slot blocked by the cap falls through to the unconditional
`< 0.50` asteroid test (and therefore, its draw being below 0.25, always
becomes an asteroid) rather than renormalizing; a ship slot increments the
running count and every other slot leaves it unchanged; and the cap is
`Math.floor(rnd·20) + 4 ∈ [4, 23]`. -/
theorem c2_generator_categorization (level cap now : ℕ) (rnd : ℕ → ℚ) (i sc k : ℕ) :
    (((genSlot level cap now rnd i sc k).1).kind = ObjKind.heart_star ↔
      rnd k < 1/100) ∧
    (((genSlot level cap now rnd i sc k).1).kind = ObjKind.boost_star ↔
      1/100 ≤ rnd k ∧ rnd k < 1/50) ∧
    (((genSlot level cap now rnd i sc k).1).kind = ObjKind.ship ↔
      1/50 ≤ rnd k ∧ rnd k < 1/4 ∧ sc < cap) ∧
    (((genSlot level cap now rnd i sc k).1).kind = ObjKind.asteroid ↔
      (1/4 ≤ rnd k ∧ rnd k < 1/2) ∨ (1/50 ≤ rnd k ∧ rnd k < 1/4 ∧ cap ≤ sc)) ∧
    (((genSlot level cap now rnd i sc k).1).kind = ObjKind.star ↔ 1/2 ≤ rnd k) ∧
    (((genSlot level cap now rnd i sc k).1).kind = ObjKind.ship →
      (genSlot level cap now rnd i sc k).2.1 = sc + 1) ∧
    (((genSlot level cap now rnd i sc k).1).kind ≠ ObjKind.ship →
      (genSlot level cap now rnd i sc k).2.1 = sc) ∧
    (0 ≤ rnd 0 → rnd 0 < 1 →
      4 ≤ maxShipsForLevelOf rnd ∧ maxShipsForLevelOf rnd ≤ 23) := by
  refine ⟨?_, ?_, ?_, ?_, ?_,
    fun h => genSlot_shipCount_of_ship level cap now rnd i sc k h,
    fun h => genSlot_shipCount_of_not_ship level cap now rnd i sc k h,
    fun h0 h1 => ?_⟩
  · rw [genSlot_kind]
    split_ifs with h1 h2 h3 h4
    · exact iff_of_true rfl h1
    · exact iff_of_false (by simp) h1
    · exact iff_of_false (by simp) h1
    · exact iff_of_false (by simp) h1
    · exact iff_of_false (by simp) h1
  · rw [genSlot_kind]
    split_ifs with h1 h2 h3 h4
    · exact iff_of_false (by simp) (fun h => absurd h.1 (not_le.mpr h1))
    · exact iff_of_true rfl ⟨not_lt.mp h1, h2⟩
    · exact iff_of_false (by simp) (fun h => h2 h.2)
    · exact iff_of_false (by simp) (fun h => h2 h.2)
    · exact iff_of_false (by simp) (fun h => h2 h.2)
  · rw [genSlot_kind]
    split_ifs with h1 h2 h3 h4
    · exact iff_of_false (by simp) (fun h => by linarith [h.1])
    · exact iff_of_false (by simp) (fun h => absurd h.1 (not_le.mpr h2))
    · exact iff_of_true rfl ⟨not_lt.mp h2, h3.1, h3.2⟩
    · exact iff_of_false (by simp) (fun h => h3 ⟨h.2.1, h.2.2⟩)
    · exact iff_of_false (by simp) (fun h => h3 ⟨h.2.1, h.2.2⟩)
  · rw [genSlot_kind]
    split_ifs with h1 h2 h3 h4
    · refine iff_of_false (by simp) ?_
      rintro (⟨a, b⟩ | ⟨a, b, c⟩) <;> linarith
    · refine iff_of_false (by simp) ?_
      rintro (⟨a, b⟩ | ⟨a, b, c⟩) <;> linarith
    · refine iff_of_false (by simp) ?_
      rintro (⟨a, b⟩ | ⟨a, b, c⟩)
      · linarith [h3.1]
      · omega
    · refine iff_of_true rfl ?_
      by_cases ht : rnd k < 1/4
      · exact Or.inr ⟨not_lt.mp h2, ht,
          Nat.le_of_not_lt (fun hsc => h3 ⟨ht, hsc⟩)⟩
      · exact Or.inl ⟨not_lt.mp ht, h4⟩
    · refine iff_of_false (by simp) ?_
      rintro (⟨a, b⟩ | ⟨a, b, c⟩) <;> linarith
  · rw [genSlot_kind]
    split_ifs with h1 h2 h3 h4
    · exact iff_of_false (by simp) (fun h => by linarith)
    · exact iff_of_false (by simp) (fun h => by linarith)
    · exact iff_of_false (by simp) (fun h => by linarith [h3.1])
    · exact iff_of_false (by simp) (fun h => by linarith)
    · exact iff_of_true rfl (not_lt.mp h4)
  · have hf : ⌊rnd 0 * 20⌋ < 20 := by
      refine Int.floor_lt.mpr ?_
      push_cast
      linarith
    have hn : Int.toNat ⌊rnd 0 * 20⌋ ≤ 19 := Int.toNat_le.mpr (by omega)
    constructor
    · exact Nat.le_add_left 4 _
    · simp only [maxShipsForLevelOf]
      omega

/-- Counterexample for C2 as stated: the claim puts the ship band at the
next 24% after the two 1% bands, i.e. `[0.02, 0.26)`; the draw `0.25` lies in
that band and the ship cap (4) is not yet reached with a running count of 0,
yet the generated object is an asteroid, not a ship — the code's ship band
ends at `0.25`. -/
theorem c2_ship_band_counterexample :
    ((1 : ℚ)/50 ≤ 1/4 ∧ (1 : ℚ)/4 < 1/50 + 24/100) ∧ 0 < 4 ∧
    ((genSlot 1 4 0 sampleRndQuarter 0 0 1).1).kind = ObjKind.asteroid ∧
    ((genSlot 1 4 0 sampleRndQuarter 0 0 1).1).kind ≠ ObjKind.ship := by
  refine ⟨by norm_num, by norm_num, ?_, ?_⟩
  · rw [genSlot_kind]
    norm_num [sampleRndQuarter]
  · rw [genSlot_kind]
    norm_num [sampleRndQuarter]
    simp

/-- Witness for C2 (amended) at the all-zero draw stream. -/
theorem c2_generator_categorization_witness :
    ((0 : ℚ) ≤ 0 ∧ (0 : ℚ) < 1) ∧
    (((genSlot 1 4 0 (fun _ => 0) 0 0 1).1).kind = ObjKind.heart_star ↔
      (0 : ℚ) < 1/100) ∧
    (4 ≤ maxShipsForLevelOf (fun _ => 0) ∧ maxShipsForLevelOf (fun _ => 0) ≤ 23) :=
  ⟨⟨le_refl 0, by norm_num⟩,
    (c2_generator_categorization 1 4 0 (fun _ => 0) 0 0 1).1,
    (c2_generator_categorization 1 4 0 (fun _ => 0) 0 0 1).2.2.2.2.2.2.2
      (le_refl 0) (by norm_num)⟩

/-! ## C3 — flanking movement -/

theorem sqrt_sq_add_sq_eq_zero_iff (lon lat : ℝ) :
    Real.sqrt (lon ^ 2 + lat ^ 2) = 0 ↔ lon = 0 ∧ lat = 0 := by
  rw [Real.sqrt_eq_zero']
  constructor
  · intro h
    constructor <;> nlinarith [sq_nonneg lon, sq_nonneg lat]
  · rintro ⟨rfl, rfl⟩
    norm_num

theorem abs_complex_mk (lon lat : ℝ) :
    Complex.abs ⟨lon, lat⟩ = Real.sqrt (lon ^ 2 + lat ^ 2) := by
  rw [Complex.abs_apply, Complex.normSq_mk]
  congr 1
  ring

theorem radius_mul_cos_arg_add (lon lat d : ℝ) :
    Real.sqrt (lon ^ 2 + lat ^ 2) * Real.cos (Complex.arg ⟨lon, lat⟩ + d) =
      lon * Real.cos d - lat * Real.sin d := by
  have h1 := Complex.abs_mul_cos_arg ⟨lon, lat⟩
  have h2 := Complex.abs_mul_sin_arg ⟨lon, lat⟩
  rw [abs_complex_mk] at h1 h2
  rw [Real.cos_add]
  calc Real.sqrt (lon ^ 2 + lat ^ 2) *
        (Real.cos (Complex.arg ⟨lon, lat⟩) * Real.cos d -
          Real.sin (Complex.arg ⟨lon, lat⟩) * Real.sin d)
      = (Real.sqrt (lon ^ 2 + lat ^ 2) * Real.cos (Complex.arg ⟨lon, lat⟩)) * Real.cos d -
          (Real.sqrt (lon ^ 2 + lat ^ 2) * Real.sin (Complex.arg ⟨lon, lat⟩)) * Real.sin d := by
        ring
    _ = lon * Real.cos d - lat * Real.sin d := by rw [h1, h2]

theorem radius_mul_sin_arg_add (lon lat d : ℝ) :
    Real.sqrt (lon ^ 2 + lat ^ 2) * Real.sin (Complex.arg ⟨lon, lat⟩ + d) =
      lat * Real.cos d + lon * Real.sin d := by
  have h1 := Complex.abs_mul_cos_arg ⟨lon, lat⟩
  have h2 := Complex.abs_mul_sin_arg ⟨lon, lat⟩
  rw [abs_complex_mk] at h1 h2
  rw [Real.sin_add]
  calc Real.sqrt (lon ^ 2 + lat ^ 2) *
        (Real.sin (Complex.arg ⟨lon, lat⟩) * Real.cos d +
          Real.cos (Complex.arg ⟨lon, lat⟩) * Real.sin d)
      = (Real.sqrt (lon ^ 2 + lat ^ 2) * Real.sin (Complex.arg ⟨lon, lat⟩)) * Real.cos d +
          (Real.sqrt (lon ^ 2 + lat ^ 2) * Real.cos (Complex.arg ⟨lon, lat⟩)) * Real.sin d := by
        ring
    _ = lat * Real.cos d + lon * Real.sin d := by rw [h1, h2]

/-- Away from the origin, one flank tick is the rotation of `(lon, lat)` by
the signed angle `flankDelta fd`, followed by the longitude wrap and the
latitude clamp. -/
theorem flankStep_eq_rotation (fd : FlankDirection) (lon lat : ℝ)
    (h0 : ¬(lon = 0 ∧ lat = 0)) :
    flankStep fd lon lat =
      (wrapLon (lon * Real.cos (flankDelta fd) - lat * Real.sin (flankDelta fd)),
        clampLat (lat * Real.cos (flankDelta fd) + lon * Real.sin (flankDelta fd))) := by
  have hr0 : Real.sqrt (lon ^ 2 + lat ^ 2) ≠ 0 := by
    rw [Ne, sqrt_sq_add_sq_eq_zero_iff]
    exact h0
  simp only [flankStep, if_neg hr0]
  rw [radius_mul_cos_arg_add, radius_mul_sin_arg_add]

theorem wrapLon_eq_self (x : ℝ) (h1 : -180 ≤ x) (h2 : x ≤ 180) : wrapLon x = x := by
  simp only [wrapLon]
  have hx1 : (if 180 < x then x - 360 else x) = x := if_neg (not_lt.mpr h2)
  rw [hx1, if_neg (not_lt.mpr h1)]

theorem wrapLon_of_lt (x : ℝ) (h : x < -180) : wrapLon x = x + 360 := by
  simp only [wrapLon]
  have hx1 : (if 180 < x then x - 360 else x) = x := if_neg (not_lt.mpr (by linarith))
  rw [hx1, if_pos h]

theorem clampLat_eq_self (x : ℝ) (h1 : -90 ≤ x) (h2 : x ≤ 90) : clampLat x = x := by
  simp only [clampLat]
  rw [min_eq_right h2, max_eq_right h1]

/-- C3 (amended): one flank tick at `(lon, lat) ≠ (0,0)` advances the polar
angle by exactly 0.005 rad — decreasing for `cw`, increasing for `ccw` — at
constant radius: the new point is `(r·cos(θ+δ), r·sin(θ+δ))` with
`δ = flankDelta fd`, and its radius `√(lon'²+lat'²)` equals `r` exactly,
PROVIDED the rotated point needs no wrap and no clamp (its raw longitude in
`[-180, 180]`, its raw latitude in `[-90, 90]`); when the wrap fires it moves
the point by 360 in longitude and the radius is not preserved (see the
counterexample). -/
theorem c3_flank_rotation (fd : FlankDirection) (lon lat : ℝ)
    (h0 : ¬(lon = 0 ∧ lat = 0))
    (hL1 : -180 ≤ lon * Real.cos (flankDelta fd) - lat * Real.sin (flankDelta fd))
    (hL2 : lon * Real.cos (flankDelta fd) - lat * Real.sin (flankDelta fd) ≤ 180)
    (hM1 : -90 ≤ lat * Real.cos (flankDelta fd) + lon * Real.sin (flankDelta fd))
    (hM2 : lat * Real.cos (flankDelta fd) + lon * Real.sin (flankDelta fd) ≤ 90) :
    flankStep fd lon lat =
      (Real.sqrt (lon ^ 2 + lat ^ 2) *
          Real.cos (Complex.arg ⟨lon, lat⟩ + flankDelta fd),
        Real.sqrt (lon ^ 2 + lat ^ 2) *
          Real.sin (Complex.arg ⟨lon, lat⟩ + flankDelta fd)) ∧
    Real.sqrt ((flankStep fd lon lat).1 ^ 2 + (flankStep fd lon lat).2 ^ 2) =
      Real.sqrt (lon ^ 2 + lat ^ 2) := by
  have hstep : flankStep fd lon lat =
      (lon * Real.cos (flankDelta fd) - lat * Real.sin (flankDelta fd),
        lat * Real.cos (flankDelta fd) + lon * Real.sin (flankDelta fd)) := by
    rw [flankStep_eq_rotation fd lon lat h0, wrapLon_eq_self _ hL1 hL2,
      clampLat_eq_self _ hM1 hM2]
  constructor
  · rw [hstep, radius_mul_cos_arg_add, radius_mul_sin_arg_add]
  · rw [hstep]
    have hsc := Real.sin_sq_add_cos_sq (flankDelta fd)
    have hLM :
        (lon * Real.cos (flankDelta fd) - lat * Real.sin (flankDelta fd)) ^ 2 +
            (lat * Real.cos (flankDelta fd) + lon * Real.sin (flankDelta fd)) ^ 2 =
          lon ^ 2 + lat ^ 2 := by
      linear_combination (lon ^ 2 + lat ^ 2) * hsc
    rw [hLM]

/-- Witness for C3 (amended) at `(100, 0)`, clockwise: the rotated point
stays in range and the radius is preserved exactly. -/
theorem c3_flank_rotation_witness :
    (¬((100 : ℝ) = 0 ∧ (0 : ℝ) = 0) ∧
      -180 ≤ (100 : ℝ) * Real.cos (flankDelta FlankDirection.cw) -
          0 * Real.sin (flankDelta FlankDirection.cw) ∧
      (100 : ℝ) * Real.cos (flankDelta FlankDirection.cw) -
          0 * Real.sin (flankDelta FlankDirection.cw) ≤ 180 ∧
      -90 ≤ (0 : ℝ) * Real.cos (flankDelta FlankDirection.cw) +
          100 * Real.sin (flankDelta FlankDirection.cw) ∧
      (0 : ℝ) * Real.cos (flankDelta FlankDirection.cw) +
          100 * Real.sin (flankDelta FlankDirection.cw) ≤ 90) ∧
    Real.sqrt ((flankStep FlankDirection.cw 100 0).1 ^ 2 +
        (flankStep FlankDirection.cw 100 0).2 ^ 2) =
      Real.sqrt ((100 : ℝ) ^ 2 + (0 : ℝ) ^ 2) := by
  have hd : flankDelta FlankDirection.cw = -0.005 := by simp [flankDelta]
  have hsin_pos : 0 < Real.sin 0.005 :=
    Real.sin_pos_of_pos_of_lt_pi (by norm_num) (by linarith [Real.pi_gt_three])
  have hsin_le : Real.sin 0.005 ≤ 0.005 := Real.sin_le (by norm_num)
  have hcos_le : Real.cos 0.005 ≤ 1 := Real.cos_le_one _
  have hcos_ge : (-1 : ℝ) ≤ Real.cos 0.005 := Real.neg_one_le_cos _
  have h0 : ¬((100 : ℝ) = 0 ∧ (0 : ℝ) = 0) := by norm_num
  have hL1 : -180 ≤ (100 : ℝ) * Real.cos (flankDelta FlankDirection.cw) -
      0 * Real.sin (flankDelta FlankDirection.cw) := by
    rw [hd, Real.cos_neg]
    nlinarith
  have hL2 : (100 : ℝ) * Real.cos (flankDelta FlankDirection.cw) -
      0 * Real.sin (flankDelta FlankDirection.cw) ≤ 180 := by
    rw [hd, Real.cos_neg]
    nlinarith
  have hM1 : -90 ≤ (0 : ℝ) * Real.cos (flankDelta FlankDirection.cw) +
      100 * Real.sin (flankDelta FlankDirection.cw) := by
    rw [hd, Real.sin_neg]
    nlinarith
  have hM2 : (0 : ℝ) * Real.cos (flankDelta FlankDirection.cw) +
      100 * Real.sin (flankDelta FlankDirection.cw) ≤ 90 := by
    rw [hd, Real.sin_neg]
    nlinarith
  exact ⟨⟨h0, hL1, hL2, hM1, hM2⟩,
    (c3_flank_rotation FlankDirection.cw 100 0 h0 hL1 hL2 hM1 hM2).2⟩

/-- Counterexample for C3 as stated: from the legal corner coordinate
`(-180, 90)` (radius `√40500 ≈ 201.246`), one counter-clockwise tick pushes
the raw longitude below -180, the wrap adds 360, and the resulting radius is
below 200.5 — more than 0.7 away from the original radius, far beyond
floating-point tolerance, so radius preservation and correct wrapping cannot
hold together. -/
theorem c3_flank_radius_counterexample :
    Real.sqrt (((-180 : ℝ)) ^ 2 + (90 : ℝ) ^ 2) ≠ 0 ∧
    Real.sqrt ((flankStep FlankDirection.ccw (-180) 90).1 ^ 2 +
        (flankStep FlankDirection.ccw (-180) 90).2 ^ 2) < 200.5 ∧
    (201.2 : ℝ) < Real.sqrt (((-180 : ℝ)) ^ 2 + (90 : ℝ) ^ 2) := by
  have hval : ((-180 : ℝ)) ^ 2 + (90 : ℝ) ^ 2 = 40500 := by norm_num
  have hd : flankDelta FlankDirection.ccw = 0.005 := by simp [flankDelta]
  have hsin_pos : 0 < Real.sin 0.005 :=
    Real.sin_pos_of_pos_of_lt_pi (by norm_num) (by linarith [Real.pi_gt_three])
  have hsin_le : Real.sin 0.005 ≤ 0.005 := Real.sin_le (by norm_num)
  have hsin_ge : (0.00499 : ℝ) ≤ Real.sin 0.005 := by
    have h := Real.sin_gt_sub_cube (x := 0.005) (by norm_num) (by norm_num)
    nlinarith
  have hcos_le : Real.cos 0.005 ≤ 1 := Real.cos_le_one _
  have hcos_ge : (1 - 0.0000125 : ℝ) ≤ Real.cos 0.005 := by
    have h := Real.one_sub_sq_div_two_le_cos (x := (0.005 : ℝ))
    nlinarith
  have h0 : ¬((-180 : ℝ) = 0 ∧ (90 : ℝ) = 0) := by norm_num
  have hL : (-180 : ℝ) * Real.cos 0.005 - 90 * Real.sin 0.005 < -180 := by
    nlinarith
  have hM1 : (-90 : ℝ) ≤ 90 * Real.cos 0.005 + (-180) * Real.sin 0.005 := by
    nlinarith
  have hM2 : (90 : ℝ) * Real.cos 0.005 + (-180) * Real.sin 0.005 ≤ 90 := by
    nlinarith
  have hstep : flankStep FlankDirection.ccw (-180) 90 =
      ((-180 : ℝ) * Real.cos 0.005 - 90 * Real.sin 0.005 + 360,
        (90 : ℝ) * Real.cos 0.005 + (-180) * Real.sin 0.005) := by
    rw [flankStep_eq_rotation FlankDirection.ccw (-180) 90 h0, hd,
      wrapLon_of_lt _ hL, clampLat_eq_self _ hM1 hM2]
  have hsc := Real.sin_sq_add_cos_sq (0.005 : ℝ)
  have hLM : ((-180 : ℝ) * Real.cos 0.005 - 90 * Real.sin 0.005) ^ 2 +
      ((90 : ℝ) * Real.cos 0.005 + (-180) * Real.sin 0.005) ^ 2 = 40500 := by
    linear_combination (40500 : ℝ) * hsc
  refine ⟨?_, ?_, ?_⟩
  · rw [hval]
    simp [Real.sqrt_eq_zero']
  · rw [hstep]
    refine (Real.sqrt_lt' (by norm_num)).mpr ?_
    nlinarith
  · rw [hval]
    refine (Real.lt_sqrt (by norm_num)).mpr ?_
    norm_num

end Astro
